import Mathlib

/-!
Verification of the poll-and-fetch image generation glue layer
(`app.py` and `streamlit_app.py`).

The Python sources are shallowly embedded: JSON payloads become the
inductive `Json`, network effects (HTTP requests, the wall clock, and the
provider's replies) become explicit oracle parameters, and every helper
(`poll_until_complete`, `extract_image_bytes`, `find_url`, the `/generate`
handler) becomes a pure Lean function translated line by line from the
source.  Machine-level concerns absent from the claims (request timeouts,
TLS, JSON parsing of the wire format) stay outside the model.
-/

namespace DOFal

/-- JSON values, as produced by `r.json()` in the Python sources.
`obj` keeps the fields in insertion order, matching Python `dict`
iteration order (relevant for `find_url`'s traversal order). -/
inductive Json where
  | null
  | bool (b : Bool)
  | num (n : Int)
  | str (s : String)
  | arr (elems : List Json)
  | obj (fields : List (String × Json))

/-- First value bound to key `k`, as in a Python `dict` lookup
(`dict` keys are unique; insertion order decides nothing here). -/
def lookupField (k : String) : List (String × Json) → Option Json
  | [] => none
  | (k', v) :: rest => if k' = k then some v else lookupField k rest

/-- `d.get(k)`: `null` models Python's `None` for a missing key.
On a non-dict the Python would raise `AttributeError`; every theorem below
restricts attention to `obj` payloads, where the two agree. -/
def Json.getPy : Json → String → Json
  | Json.obj fs, k => (lookupField k fs).getD Json.null
  | _, _ => Json.null

/-- Python truthiness of a JSON value (`None`, `""`, `0`, `False`, `[]`,
`{}` are falsy). -/
def Json.truthy : Json → Bool
  | Json.null => false
  | Json.bool b => b
  | Json.num n => n ≠ 0
  | Json.str s => s ≠ ""
  | Json.arr xs => !xs.isEmpty
  | Json.obj fs => !fs.isEmpty

/-- Python's `a or b` on JSON values. -/
def pyOr (a b : Json) : Json := if a.truthy then a else b

/-- The string carried by a JSON value; `""` for non-strings.  The Python
code applies `str` methods (`.upper()`, `.strip()`) to these values, which
would raise on a non-string; all theorems below supply string (or absent)
values, where the model is exact. -/
def Json.asStr : Json → String
  | Json.str s => s
  | _ => ""

def Json.isObj : Json → Bool
  | Json.obj _ => true
  | _ => false

/-- `.upper()`: uppercase every character.  (Character-list model of
`String.toUpper`, chosen because it reduces inside the kernel.) -/
def toUpperPy (s : String) : String := ⟨s.data.map Char.toUpper⟩

/-- `s.startswith(pre)`.  (Character-list model of `String.startsWith`.) -/
def startsWithPy (s pre : String) : Bool := pre.data.isPrefixOf s.data

/-- `.strip()`: drop leading and trailing whitespace.  (Character-list
model of `String.trim`; Python's `str.strip` covers a slightly larger
Unicode whitespace set, irrelevant to the claims.) -/
def stripPy (s : String) : String :=
  ⟨((s.data.dropWhile Char.isWhitespace).reverse.dropWhile Char.isWhitespace).reverse⟩

/-! ### Poller (`poll_until_complete`, identical logic in both files)

```python
start = time.time()
while True:
    s = get_status(request_id)
    state = (s.get("status") or s.get("state") or "").upper()
    if state in ("COMPLETE", "SUCCEEDED", "SUCCESS"):
        return get_result(request_id)
    if state in ("FAILED", "ERROR"):
        raise RuntimeError(f"Job failed: {s}")
    if time.time() - start > timeout:
        raise TimeoutError("Polling timed out")
    time.sleep(interval)
```

The provider is the oracle `statuses : Nat → Json` (the payload returned by
the i-th `get_status` call) and the clock is `elapsed : Nat → Nat` (the value
of `time.time() - start` at the i-th timeout check).  `get_result` returns
the oracle `resultPayload`.  The loop is fuel-indexed; `none` means the fuel
ran out before the loop decided (the Python loop would still be running). -/

/-- `(s.get("status") or s.get("state") or "").upper()`. -/
def normStatus (s : Json) : String :=
  toUpperPy (pyOr (s.getPy "status") (pyOr (s.getPy "state") (Json.str ""))).asStr

/-- `state in ("COMPLETE", "SUCCEEDED", "SUCCESS")`. -/
def isSuccessStatus (v : String) : Bool :=
  v = "COMPLETE" || v = "SUCCEEDED" || v = "SUCCESS"

/-- `state in ("FAILED", "ERROR")`. -/
def isFailureStatus (v : String) : Bool :=
  v = "FAILED" || v = "ERROR"

/-- How one polling session ends. -/
inductive PollOutcome where
  | success (result : Json)        -- `return get_result(request_id)`
  | jobFailed (statusPayload : Json)  -- `raise RuntimeError(f"Job failed: {s}")`
  | timedOut                       -- `raise TimeoutError("Polling timed out")`

/-- Provider calls issued by one polling session. -/
structure PollStats where
  statusCalls : Nat
  resultFetches : Nat
deriving DecidableEq

/-- The poll loop.  `i` is the index of the next `get_status` call (the
statement-level theorems start it at `0`); on termination the stats record
every provider call the loop made: `i + 1` status queries, and one result
fetch exactly in the success branch. -/
def poll_until_complete (statuses : Nat → Json) (elapsed : Nat → Nat)
    (resultPayload : Json) (timeout : Nat) :
    Nat → Nat → Option (PollOutcome × PollStats)
  | 0, _ => none
  | fuel + 1, i =>
    let s := statuses i
    let state := normStatus s
    if isSuccessStatus state then
      some (PollOutcome.success resultPayload, ⟨i + 1, 1⟩)
    else if isFailureStatus state then
      some (PollOutcome.jobFailed s, ⟨i + 1, 0⟩)
    else if timeout < elapsed i then
      some (PollOutcome.timedOut, ⟨i + 1, 0⟩)
    else
      poll_until_complete statuses elapsed resultPayload timeout fuel (i + 1)

/-! ### Recursive URL search (`find_url`, identical in both files)

```python
def find_url(obj):
    if isinstance(obj, dict):
        for v in obj.values():
            if isinstance(v, str) and v.startswith("http"):
                return v
            found = find_url(v)
            if found: return found
    if isinstance(obj, list):
        for e in obj:
            found = find_url(e)
            if found: return found
    return None
```

Note `find_url` returns `None` on a bare string: the inner
`isinstance(v, str)` test only fires on dict values (list elements reach it
one level down through the recursive call, which checks nothing for plain
strings). -/

/-- The `isinstance(v, str) and v.startswith("http")` test, keeping `v`. -/
def httpString : Json → Option String
  | Json.str s => if startsWithPy s "http" then some s else none
  | _ => none

mutual

def find_url : Json → Option String
  | Json.obj fs => find_url_fields fs
  | Json.arr xs => find_url_elems xs
  | _ => none

/-- The `for v in obj.values()` loop body. -/
def find_url_fields : List (String × Json) → Option String
  | [] => none
  | (_, v) :: rest =>
    match httpString v with
    | some s => some s
    | none =>
      match find_url v with
      | some u => some u
      | none => find_url_fields rest

/-- The `for e in obj` loop body. -/
def find_url_elems : List Json → Option String
  | [] => none
  | e :: rest =>
    match find_url e with
    | some u => some u
    | none => find_url_elems rest

end

/-! `hasHttp`: whether any string anywhere in the value (the value itself
included) starts with `"http"`.  This is the "any string value anywhere in
the nested payload" search space that the spec describes for the fallback;
`find_url` covers strictly less of it (see `hasHttpDictValue` below). -/

mutual

def hasHttp : Json → Bool
  | Json.str s => startsWithPy s "http"
  | Json.obj fs => hasHttpFields fs
  | Json.arr xs => hasHttpElems xs
  | _ => false

def hasHttpFields : List (String × Json) → Bool
  | [] => false
  | (_, v) :: rest => hasHttp v || hasHttpFields rest

def hasHttpElems : List Json → Bool
  | [] => false
  | e :: rest => hasHttp e || hasHttpElems rest

end

/-! ### Result extractors

HTTP fetches are the oracle `fetch : String → List Nat × Option String`:
for a URL it yields `r.content` (the body bytes) and the raw
`Content-Type` header (`none` when absent).  `base64.b64decode` is the
oracle `b64dec`.  Both extractors return `some (bytes, mime)` or `none`
for Python's `(None, None)`. -/

/-- `r.content, r.headers.get("Content-Type", "image/png")` after
`requests.get(u)`. -/
def fetchResp (fetch : String → List Nat × Option String) (u : String) :
    List Nat × String :=
  ((fetch u).1, (fetch u).2.getD "image/png")

/-- The `output[0]` block of `extract_image_bytes` (app.py, lines 134-145).
The `isinstance(item, str)` test sits at the same indentation as
`isinstance(item, dict)`, so a string first element is fetched directly. -/
def tryOutputApp (fetch : String → List Nat × Option String)
    (b64dec : String → List Nat) (output : Json) :
    Option (List Nat × String) :=
  match output with
  | Json.arr (item :: _) =>   -- `isinstance(output, list) and output`
    match item with
    | Json.obj _ =>
      if (item.getPy "url").truthy then
        some (fetchResp fetch (item.getPy "url").asStr)
      else if (pyOr (item.getPy "base64") (item.getPy "b64")).truthy then
        some (b64dec (pyOr (item.getPy "base64") (item.getPy "b64")).asStr,
              "image/png")
      else none
    | Json.str s =>
      if startsWithPy s "http" then some (fetchResp fetch s) else none
    | _ => none
  | _ => none

/-- The `output[0]` block of `extract_first_image_bytes` (streamlit_app.py,
lines 86-100).  There the `isinstance(item, str)` test is indented INSIDE
the `isinstance(item, dict)` branch, where `item` is already known to be a
dict, so it can never succeed: a string first element falls through to the
recursive search. -/
def tryOutputSt (fetch : String → List Nat × Option String)
    (b64dec : String → List Nat) (output : Json) :
    Option (List Nat × String) :=
  match output with
  | Json.arr (item :: _) =>
    match item with
    | Json.obj _ =>
      if (item.getPy "url").truthy then
        some (fetchResp fetch (item.getPy "url").asStr)
      else if (pyOr (item.getPy "base64") (item.getPy "b64")).truthy then
        some (b64dec (pyOr (item.getPy "base64") (item.getPy "b64")).asStr,
              "image/png")
      else none
      -- the source's `if isinstance(item, str) ...` lives here, inside the
      -- dict branch, and is therefore unreachable
    | _ => none
  | _ => none

/-- `extract_image_bytes(result_json)` from app.py, lines 125-163. -/
def extract_image_bytes (fetch : String → List Nat × Option String)
    (b64dec : String → List Nat) (j : Json) : Option (List Nat × String) :=
  -- `if isinstance(result_json, dict) and result_json.get("url"):`
  if j.isObj && (j.getPy "url").truthy then
    some (fetchResp fetch (j.getPy "url").asStr)
  else
    -- `output = result_json.get("output") or result_json.get("outputs")
    --          or result_json.get("results")`
    match tryOutputApp fetch b64dec
        (pyOr (j.getPy "output") (pyOr (j.getPy "outputs") (j.getPy "results"))) with
    | some r => some r
    | none =>
      match find_url j with
      | some u => some (fetchResp fetch u)
      | none => none   -- `return None, None`

/-- `extract_first_image_bytes(result_json)` from streamlit_app.py,
lines 72-124.  Identical to `extract_image_bytes` except for the dead
string check inside the `output[0]` block (see `tryOutputSt`). -/
def extract_first_image_bytes (fetch : String → List Nat × Option String)
    (b64dec : String → List Nat) (j : Json) : Option (List Nat × String) :=
  if j.isObj && (j.getPy "url").truthy then
    some (fetchResp fetch (j.getPy "url").asStr)
  else
    match tryOutputSt fetch b64dec
        (pyOr (j.getPy "output") (pyOr (j.getPy "outputs") (j.getPy "results"))) with
    | some r => some r
    | none =>
      match find_url j with
      | some u => some (fetchResp fetch u)
      | none => none

/-! ### Provider endpoint URLs

app.py line 12 sets its `DO_INFERENCE_BASE` to a value that already ends in
`/async-invoke`; streamlit_app.py line 18 stops at `/v1`.  Each file then
appends the same relative paths (app.py lines 98, 103, 108; streamlit
lines 44, 49, 54). -/

namespace AppPy

def DO_INFERENCE_BASE : String := "https://inference.do-ai.run/v1/async-invoke"

/-- `f"{DO_INFERENCE_BASE}/async-invoke"` (job creation, app.py line 98). -/
def submitUrl : String := DO_INFERENCE_BASE ++ "/async-invoke"

/-- `f"{DO_INFERENCE_BASE}/async-invoke/{request_id}/status"` (line 103). -/
def statusUrl (request_id : String) : String :=
  DO_INFERENCE_BASE ++ "/async-invoke/" ++ request_id ++ "/status"

/-- `f"{DO_INFERENCE_BASE}/async-invoke/{request_id}"` (line 108). -/
def resultUrl (request_id : String) : String :=
  DO_INFERENCE_BASE ++ "/async-invoke/" ++ request_id

end AppPy

namespace StApp

def DO_INFERENCE_BASE : String := "https://inference.do-ai.run/v1"

/-- `f"{DO_INFERENCE_BASE}/async-invoke"` (job creation, streamlit line 44). -/
def submitUrl : String := DO_INFERENCE_BASE ++ "/async-invoke"

/-- `f"{DO_INFERENCE_BASE}/async-invoke/{request_id}/status"` (line 49). -/
def statusUrl (request_id : String) : String :=
  DO_INFERENCE_BASE ++ "/async-invoke/" ++ request_id ++ "/status"

/-- `f"{DO_INFERENCE_BASE}/async-invoke/{request_id}"` (line 54). -/
def resultUrl (request_id : String) : String :=
  DO_INFERENCE_BASE ++ "/async-invoke/" ++ request_id

end StApp

/-! ### The `/generate` request handler (app.py, lines 172-201)

The provider is abstracted by the same oracles as above plus
`startResp : Json`, the reply of `start_async_invoke` (its request body
`{"model_id": model_id, "input": {"prompt": prompt}}` does not influence
the oracle's reply here, so `model_id` is not threaded through).  `Calls`
counts the provider API calls actually issued (job submissions, status
queries, result fetches); image downloads by the extractor go to arbitrary
hosts and are not provider API calls. -/

/-- Provider API calls issued while serving one request. -/
structure Calls where
  submits : Nat
  statusQueries : Nat
  resultFetches : Nat
deriving DecidableEq

/-- An HTTP response body produced by the handler. -/
inductive Body where
  | text (s : String)                               -- plain-text body
  | textP (s : String) (payload : Json)             -- f-string carrying a payload
  | jsonBody (err : String) (key : String) (payload : Json)  -- `jsonify({...})`
  | file (bytes : List Nat) (mime : String)         -- `send_file(...)`

/-- An HTTP response: body plus status code. -/
structure Resp where
  body : Body
  code : Nat

/-- `start.get("request_id") or start.get("id") or start.get("requestId")`
(app.py line 186; the identical expression is streamlit_app.py line 140). -/
def chosen_request_id (start : Json) : Json :=
  pyOr (start.getPy "request_id") (pyOr (start.getPy "id") (start.getPy "requestId"))

/-- The `/generate` handler, app.py lines 172-201.  `key` is
`DO_MODEL_ACCESS_KEY`, `data` the parsed request JSON (assumed an object,
as `request.get_json` produces for a JSON-object body).  `none` means the
poll loop was still running when `fuel` ran out. -/
def generate (key : String) (data : Json) (startResp : Json)
    (statuses : Nat → Json) (elapsed : Nat → Nat) (resultPayload : Json)
    (timeout : Nat) (fetch : String → List Nat × Option String)
    (b64dec : String → List Nat) (fuel : Nat) : Option (Resp × Calls) :=
  if key = "" then
    some (⟨Body.text "Server not configured with DO_MODEL_ACCESS_KEY", 500⟩,
          ⟨0, 0, 0⟩)
  else
    -- `prompt = (data.get("prompt") or "").strip()` (`strip` modelled by
    -- `String.trim`; both drop leading/trailing whitespace)
    let prompt := stripPy (pyOr (data.getPy "prompt") (Json.str "")).asStr
    -- `model_id = data.get("model_id") or "fal-ai/flux/schnell"` is passed
    -- to `start_async_invoke`, whose reply is the oracle `startResp`
    if prompt = "" then
      some (⟨Body.text "Prompt is required", 400⟩, ⟨0, 0, 0⟩)
    else
      let start := startResp          -- one job-submission call
      let request_id := chosen_request_id start
      if !request_id.truthy then
        some (⟨Body.jsonBody "unexpected async-invoke response" "resp" start, 502⟩,
              ⟨1, 0, 0⟩)
      else
        match poll_until_complete statuses elapsed resultPayload timeout fuel 0 with
        | none => none
        | some (PollOutcome.timedOut, stats) =>
          -- `except TimeoutError as te: return f"Timed out: {te}", 504`
          some (⟨Body.text "Timed out: Polling timed out", 504⟩,
                ⟨1, stats.statusCalls, stats.resultFetches⟩)
        | some (PollOutcome.jobFailed s, stats) =>
          -- the RuntimeError lands in `except Exception as e: ... , 500`
          some (⟨Body.textP "Error: Job failed: " s, 500⟩,
                ⟨1, stats.statusCalls, stats.resultFetches⟩)
        | some (PollOutcome.success final, stats) =>
          match extract_image_bytes fetch b64dec final with
          | none =>   -- `img_bytes` is `None`: `if not img_bytes:`
            some (⟨Body.jsonBody "no image found in result" "result" final, 502⟩,
                  ⟨1, stats.statusCalls, stats.resultFetches⟩)
          | some (imgBytes, mime) =>
            if imgBytes.isEmpty then   -- `b""` is falsy: `if not img_bytes:`
              some (⟨Body.jsonBody "no image found in result" "result" final, 502⟩,
                    ⟨1, stats.statusCalls, stats.resultFetches⟩)
            else
              -- `send_file(BytesIO(img_bytes), mimetype=mime or "image/png")`
              some (⟨Body.file imgBytes (if mime = "" then "image/png" else mime), 200⟩,
                    ⟨1, stats.statusCalls, stats.resultFetches⟩)

/-! ### The streamlit click handler (streamlit_app.py, lines 127-164) -/

/-- What the streamlit UI shows after one click of the Generate button. -/
inductive StOutcome where
  | errorNoKey                       -- `st.error("DO_MODEL_ACCESS_KEY is not set...")`
  | warnEmptyPrompt                  -- `st.warning("Enter a prompt first.")`
  | errorUnexpected (resp : Json)    -- `st.error("Unexpected response from async-invoke: ...")`
  | errorTimeout                     -- `status_placeholder.error(str(te))`
  | errorJobFailed (payload : Json)  -- generic `except Exception` path
  | noImage (final : Json)           -- `st.error("No image found in model result...")`
  | showImage (bytes : List Nat) (final : Json)  -- `img_placeholder.image(...)`

/-- The `if generate_btn:` block, streamlit_app.py lines 127-164.
`prompt` is the text-area content. -/
def generate_btn_click (key : String) (prompt : String) (startResp : Json)
    (statuses : Nat → Json) (elapsed : Nat → Nat) (resultPayload : Json)
    (timeout : Nat) (fetch : String → List Nat × Option String)
    (b64dec : String → List Nat) (fuel : Nat) : Option (StOutcome × Calls) :=
  if key = "" then
    some (StOutcome.errorNoKey, ⟨0, 0, 0⟩)
  else if stripPy prompt = "" then   -- `elif not prompt.strip():`
    some (StOutcome.warnEmptyPrompt, ⟨0, 0, 0⟩)
  else
    let start := startResp
    let request_id := chosen_request_id start
    if !request_id.truthy then
      some (StOutcome.errorUnexpected start, ⟨1, 0, 0⟩)
    else
      match poll_until_complete statuses elapsed resultPayload timeout fuel 0 with
      | none => none
      | some (PollOutcome.timedOut, stats) =>
        some (StOutcome.errorTimeout, ⟨1, stats.statusCalls, stats.resultFetches⟩)
      | some (PollOutcome.jobFailed s, stats) =>
        some (StOutcome.errorJobFailed s, ⟨1, stats.statusCalls, stats.resultFetches⟩)
      | some (PollOutcome.success final, stats) =>
        match extract_first_image_bytes fetch b64dec final with
        | none =>
          some (StOutcome.noImage final, ⟨1, stats.statusCalls, stats.resultFetches⟩)
        | some (imgBytes, _mime) =>
          if imgBytes.isEmpty then   -- `if not img_bytes:`
            some (StOutcome.noImage final, ⟨1, stats.statusCalls, stats.resultFetches⟩)
          else
            some (StOutcome.showImage imgBytes final,
                  ⟨1, stats.statusCalls, stats.resultFetches⟩)

/-! ## Supporting lemmas -/

/-- A status that classifies as failure does not classify as success
(the two keyword sets are disjoint). -/
theorem failure_not_success (v : String) (h : isFailureStatus v = true) :
    isSuccessStatus v = false := by
  simp only [isFailureStatus, Bool.or_eq_true, decide_eq_true_eq] at h
  rcases h with h | h <;> subst h <;> decide

/-- Stepping the poll loop over a stretch of non-terminal, in-budget
status checks just advances the call index. -/
theorem poll_skip (statuses : Nat → Json) (elapsed : Nat → Nat)
    (resultPayload : Json) (timeout : Nat) :
    ∀ (n i fuel : Nat),
      (∀ j, i ≤ j → j < i + n →
        isSuccessStatus (normStatus (statuses j)) = false ∧
        isFailureStatus (normStatus (statuses j)) = false ∧
        elapsed j ≤ timeout) →
      poll_until_complete statuses elapsed resultPayload timeout (n + fuel) i =
        poll_until_complete statuses elapsed resultPayload timeout fuel (i + n) := by
  intro n
  induction n with
  | zero => intro i fuel _; simp
  | succ n ih =>
    intro i fuel h
    have h0 := h i (Nat.le_refl i) (by omega)
    have hstep : n + 1 + fuel = (n + fuel) + 1 := by omega
    rw [hstep]
    show poll_until_complete statuses elapsed resultPayload timeout ((n + fuel) + 1) i = _
    simp only [poll_until_complete, h0.1, h0.2.1, Bool.false_eq_true, if_false,
      Nat.not_lt.mpr h0.2.2, if_neg (Nat.not_lt.mpr h0.2.2)]
    have := ih (i + 1) fuel (by intro j hj1 hj2; exact h j (by omega) (by omega))
    rw [this, Nat.add_right_comm i 1 n, Nat.add_assoc]

/-- Inversion for the `isinstance(v, str) and v.startswith("http")` test. -/
theorem httpString_some (v : Json) (s : String) (h : httpString v = some s) :
    v = Json.str s ∧ startsWithPy s "http" = true := by
  cases v with
  | str s0 =>
    simp only [httpString] at h
    split at h
    · cases h
      exact ⟨rfl, by assumption⟩
    · cases h
  | null => simp [httpString] at h
  | bool b => simp [httpString] at h
  | num n => simp [httpString] at h
  | arr xs => simp [httpString] at h
  | obj fs => simp [httpString] at h

/-! `hasHttpDictValue`: whether a string starting with `"http"` occurs as
the VALUE OF A DICTIONARY KEY somewhere inside the payload.  This — not
`hasHttp` — is the search space `find_url` actually covers: its
`isinstance(v, str)` test runs only on dict values, and `find_url` applied
to a bare string returns `None`, so an http string sitting directly in a
list is never found. -/

mutual

def hasHttpDictValue : Json → Bool
  | Json.obj fs => hasHttpDictValueFields fs
  | Json.arr xs => hasHttpDictValueElems xs
  | _ => false

def hasHttpDictValueFields : List (String × Json) → Bool
  | [] => false
  | (_, v) :: rest =>
    (httpString v).isSome || hasHttpDictValue v || hasHttpDictValueFields rest

def hasHttpDictValueElems : List Json → Bool
  | [] => false
  | e :: rest => hasHttpDictValue e || hasHttpDictValueElems rest

end

/-! Soundness of the depth-first search: whatever `find_url` returns is an
`http`-prefixed string occurring as a dict value in the payload. -/

mutual

theorem find_url_sound (j : Json) (u : String) (h : find_url j = some u) :
    startsWithPy u "http" = true ∧ hasHttpDictValue j = true := by
  cases j with
  | obj fs =>
    have hf := find_url_fields_sound fs u (by simpa [find_url] using h)
    exact ⟨hf.1, by simpa [hasHttpDictValue] using hf.2⟩
  | arr xs =>
    have he := find_url_elems_sound xs u (by simpa [find_url] using h)
    exact ⟨he.1, by simpa [hasHttpDictValue] using he.2⟩
  | null => simp [find_url] at h
  | bool b => simp [find_url] at h
  | num n => simp [find_url] at h
  | str s => simp [find_url] at h

theorem find_url_fields_sound (fs : List (String × Json)) (u : String)
    (h : find_url_fields fs = some u) :
    startsWithPy u "http" = true ∧ hasHttpDictValueFields fs = true := by
  match fs with
  | [] => simp [find_url_fields] at h
  | (k, v) :: rest =>
    simp only [find_url_fields] at h
    cases hhv : httpString v with
    | some s =>
      rw [hhv] at h
      cases h
      obtain ⟨hv, hs⟩ := httpString_some v u hhv
      exact ⟨hs, by simp [hasHttpDictValueFields, hhv]⟩
    | none =>
      rw [hhv] at h
      cases hfv : find_url v with
      | some w =>
        rw [hfv] at h
        cases h
        have hv := find_url_sound v u hfv
        exact ⟨hv.1, by simp [hasHttpDictValueFields, hv.2]⟩
      | none =>
        rw [hfv] at h
        have hr := find_url_fields_sound rest u h
        exact ⟨hr.1, by simp [hasHttpDictValueFields, hr.2]⟩

theorem find_url_elems_sound (xs : List Json) (u : String)
    (h : find_url_elems xs = some u) :
    startsWithPy u "http" = true ∧ hasHttpDictValueElems xs = true := by
  match xs with
  | [] => simp [find_url_elems] at h
  | e :: rest =>
    simp only [find_url_elems] at h
    cases hfe : find_url e with
    | some w =>
      rw [hfe] at h
      cases h
      have he := find_url_sound e u hfe
      exact ⟨he.1, by simp [hasHttpDictValueElems, he.2]⟩
    | none =>
      rw [hfe] at h
      have hr := find_url_elems_sound rest u h
      exact ⟨hr.1, by simp [hasHttpDictValueElems, hr.2]⟩

end

/-! Completeness of the depth-first search over its actual search space:
if an `http`-prefixed string occurs as a dict value anywhere in the
payload, the search returns something. -/

mutual

theorem find_url_complete (v : Json) (h : hasHttpDictValue v = true) :
    (find_url v).isSome = true := by
  cases v with
  | obj fs =>
    have hf := find_url_fields_complete fs (by simpa [hasHttpDictValue] using h)
    simpa [find_url] using hf
  | arr xs =>
    have he := find_url_elems_complete xs (by simpa [hasHttpDictValue] using h)
    simpa [find_url] using he
  | null => simp [hasHttpDictValue] at h
  | bool b => simp [hasHttpDictValue] at h
  | num n => simp [hasHttpDictValue] at h
  | str s => simp [hasHttpDictValue] at h

theorem find_url_fields_complete (fs : List (String × Json))
    (h : hasHttpDictValueFields fs = true) : (find_url_fields fs).isSome = true := by
  match fs with
  | [] => simp [hasHttpDictValueFields] at h
  | (k, v) :: rest =>
    simp only [hasHttpDictValueFields, Bool.or_eq_true] at h
    simp only [find_url_fields]
    cases hhv : httpString v with
    | some s => simp
    | none =>
      cases hfv : find_url v with
      | some w => simp
      | none =>
        rcases h with (hv | hv) | hrest
        · rw [hhv] at hv; cases hv
        · have := find_url_complete v hv
          rw [hfv] at this; cases this
        · exact find_url_fields_complete rest hrest

theorem find_url_elems_complete (xs : List Json)
    (h : hasHttpDictValueElems xs = true) : (find_url_elems xs).isSome = true := by
  match xs with
  | [] => simp [hasHttpDictValueElems] at h
  | e :: rest =>
    simp only [hasHttpDictValueElems, Bool.or_eq_true] at h
    simp only [find_url_elems]
    cases hfe : find_url e with
    | some w => simp
    | none =>
      rcases h with he | hrest
      · have := find_url_complete e he
        rw [hfe] at this; cases this
      · exact find_url_elems_complete rest hrest

end

/-! ## Claims -/

/-- C1: if the i-th status payload normalizes (uppercased, from either the
`status` or the `state` key) to `SUCCESS`, `SUCCEEDED` or `COMPLETE`, and
every earlier check was non-terminal and within the time budget, then the
poller stops after that status query (exactly `i + 1` status calls), issues
exactly one further call to fetch the full result payload, and returns that
payload. -/
theorem C1_success_stops_polling_and_fetches_result
    (statuses : Nat → Json) (elapsed : Nat → Nat) (resultPayload : Json)
    (timeout i fuel : Nat)
    (hpre : ∀ j, j < i →
      isSuccessStatus (normStatus (statuses j)) = false ∧
      isFailureStatus (normStatus (statuses j)) = false ∧
      elapsed j ≤ timeout)
    (hsucc : isSuccessStatus (normStatus (statuses i)) = true)
    (hfuel : i < fuel) :
    poll_until_complete statuses elapsed resultPayload timeout fuel 0 =
      some (PollOutcome.success resultPayload,
            { statusCalls := i + 1, resultFetches := 1 }) := by
  obtain ⟨m, rfl⟩ : ∃ m, fuel = i + (m + 1) := ⟨fuel - (i + 1), by omega⟩
  have hskip := poll_skip statuses elapsed resultPayload timeout i 0 (m + 1)
    (by intro j h0 hj; exact hpre j (by omega))
  simp only [Nat.zero_add] at hskip
  rw [hskip]
  simp [poll_until_complete, hsucc]

/-- Witness for C1: a lowercase `"success"` under the `state` key after one
pending check stops the poller at the second status call, with one result
fetch, returning the result payload. -/
theorem C1_witness :
    poll_until_complete
      (fun n => if n = 0 then Json.obj [("status", Json.str "IN_PROGRESS")]
                else Json.obj [("state", Json.str "success")])
      (fun _ => 0) (Json.obj [("url", Json.str "http://img.example/a.png")]) 60 5 0 =
      some (PollOutcome.success (Json.obj [("url", Json.str "http://img.example/a.png")]),
            { statusCalls := 2, resultFetches := 1 }) := by
  exact C1_success_stops_polling_and_fetches_result _ _ _ 60 1 5
    (by
      intro j hj
      have hj0 : j = 0 := by omega
      subst hj0
      exact ⟨by decide, by decide, by decide⟩)
    (by decide) (by omega)

/-- C2: if the i-th status payload normalizes (case-insensitively) to
`FAILED` or `ERROR`, and every earlier check was non-terminal and within
budget, the poller raises the job-failure error carrying that status
payload, having made exactly `i + 1` status queries and no result fetch. -/
theorem C2_failure_raises_without_further_calls
    (statuses : Nat → Json) (elapsed : Nat → Nat) (resultPayload : Json)
    (timeout i fuel : Nat)
    (hpre : ∀ j, j < i →
      isSuccessStatus (normStatus (statuses j)) = false ∧
      isFailureStatus (normStatus (statuses j)) = false ∧
      elapsed j ≤ timeout)
    (hfail : isFailureStatus (normStatus (statuses i)) = true)
    (hfuel : i < fuel) :
    poll_until_complete statuses elapsed resultPayload timeout fuel 0 =
      some (PollOutcome.jobFailed (statuses i),
            { statusCalls := i + 1, resultFetches := 0 }) := by
  obtain ⟨m, rfl⟩ : ∃ m, fuel = i + (m + 1) := ⟨fuel - (i + 1), by omega⟩
  have hskip := poll_skip statuses elapsed resultPayload timeout i 0 (m + 1)
    (by intro j h0 hj; exact hpre j (by omega))
  simp only [Nat.zero_add] at hskip
  rw [hskip]
  simp [poll_until_complete, hfail, failure_not_success _ hfail]

/-- Witness for C2: a lowercase `"error"` status at the third check stops
the poller there: three status queries, no result fetch, and the raised
error carries that status payload. -/
theorem C2_witness :
    poll_until_complete
      (fun n => if n < 2 then Json.obj [("status", Json.str "PENDING")]
                else Json.obj [("status", Json.str "error"), ("reason", Json.str "bad prompt")])
      (fun _ => 0) Json.null 60 9 0 =
      some (PollOutcome.jobFailed
              (Json.obj [("status", Json.str "error"), ("reason", Json.str "bad prompt")]),
            { statusCalls := 3, resultFetches := 0 }) := by
  have h := C2_failure_raises_without_further_calls
    (fun n => if n < 2 then Json.obj [("status", Json.str "PENDING")]
              else Json.obj [("status", Json.str "error"), ("reason", Json.str "bad prompt")])
    (fun _ => 0) Json.null 60 2 9
    (by
      intro j hj
      interval_cases j <;> exact ⟨by decide, by decide, by decide⟩)
    (by decide) (by omega)
  simpa using h

/-- C3: if every status check before the i-th was non-terminal and within
budget, and at the i-th check the status is still non-terminal but the
elapsed time exceeds the configured timeout, then the poller raises the
poll-timeout error after exactly `i + 1` status queries with no result
fetch (no further provider calls), and the `/generate` handler maps that
outcome to a 504 gateway-timeout response. -/
theorem C3_timeout_raises_and_handler_responds_504
    (statuses : Nat → Json) (elapsed : Nat → Nat) (resultPayload : Json)
    (timeout i fuel : Nat) (key p : String) (data startResp : Json)
    (fetch : String → List Nat × Option String) (b64dec : String → List Nat)
    (hpre : ∀ j, j < i →
      isSuccessStatus (normStatus (statuses j)) = false ∧
      isFailureStatus (normStatus (statuses j)) = false ∧
      elapsed j ≤ timeout)
    (hnt1 : isSuccessStatus (normStatus (statuses i)) = false)
    (hnt2 : isFailureStatus (normStatus (statuses i)) = false)
    (htime : timeout < elapsed i)
    (hfuel : i < fuel)
    (hkey : key ≠ "")
    (hp : data.getPy "prompt" = Json.str p) (hps : stripPy p ≠ "")
    (hid : (chosen_request_id startResp).truthy = true) :
    poll_until_complete statuses elapsed resultPayload timeout fuel 0 =
      some (PollOutcome.timedOut, { statusCalls := i + 1, resultFetches := 0 }) ∧
    generate key data startResp statuses elapsed resultPayload timeout fetch b64dec fuel =
      some (⟨Body.text "Timed out: Polling timed out", 504⟩,
            { submits := 1, statusQueries := i + 1, resultFetches := 0 }) := by
  have hpne : p ≠ "" := by intro hcon; exact hps (by rw [hcon]; rfl)
  have hpoll : poll_until_complete statuses elapsed resultPayload timeout fuel 0 =
      some (PollOutcome.timedOut, { statusCalls := i + 1, resultFetches := 0 }) := by
    obtain ⟨m, rfl⟩ : ∃ m, fuel = i + (m + 1) := ⟨fuel - (i + 1), by omega⟩
    have hskip := poll_skip statuses elapsed resultPayload timeout i 0 (m + 1)
      (by intro j h0 hj; exact hpre j (by omega))
    simp only [Nat.zero_add] at hskip
    rw [hskip]
    simp [poll_until_complete, hnt1, hnt2, htime]
  refine ⟨hpoll, ?_⟩
  have htr : (Json.str p).truthy = true := by simp [Json.truthy, hpne]
  simp [generate, hkey, hp, hps, hid, hpoll, pyOr, htr, Json.asStr]

/-- Witness for C3: a provider stuck on `PENDING` with the clock already
past the 60-second budget at the first check: the poller times out after
one status query and the handler answers 504. -/
theorem C3_witness :
    poll_until_complete (fun _ => Json.obj [("status", Json.str "PENDING")])
      (fun _ => 61) Json.null 60 3 0 =
      some (PollOutcome.timedOut, { statusCalls := 1, resultFetches := 0 }) ∧
    generate "k" (Json.obj [("prompt", Json.str "a red circle")])
      (Json.obj [("request_id", Json.str "req-1")])
      (fun _ => Json.obj [("status", Json.str "PENDING")]) (fun _ => 61)
      Json.null 60 (fun _ => ([], none)) (fun _ => []) 3 =
      some (⟨Body.text "Timed out: Polling timed out", 504⟩,
            { submits := 1, statusQueries := 1, resultFetches := 0 }) := by
  exact C3_timeout_raises_and_handler_responds_504
    (fun _ => Json.obj [("status", Json.str "PENDING")]) (fun _ => 61)
    Json.null 60 0 3 "k" "a red circle"
    (Json.obj [("prompt", Json.str "a red circle")])
    (Json.obj [("request_id", Json.str "req-1")])
    (fun _ => ([], none)) (fun _ => [])
    (by intro j hj; omega)
    (by decide) (by decide) (by decide) (by omega) (by decide)
    (by rfl) (by decide) (by rfl)

/-- C4: when the result payload is an object whose top-level `url` field
holds a non-empty string `u`, both extractors fetch `u` and return its
bytes and content type — whatever the `output`/`outputs`/`results` list
holds.  The conclusion does not depend on the output list at all, so in
particular a payload carrying both a top-level URL and an output-list URL
resolves to the top-level one. -/
theorem C4_top_level_url_wins
    (fetch : String → List Nat × Option String) (b64dec : String → List Nat)
    (j : Json) (u : String)
    (hobj : j.isObj = true) (hu : j.getPy "url" = Json.str u) (hne : u ≠ "") :
    extract_image_bytes fetch b64dec j = some (fetchResp fetch u) ∧
    extract_first_image_bytes fetch b64dec j = some (fetchResp fetch u) := by
  have htr : (Json.str u).truthy = true := by simp [Json.truthy, hne]
  constructor <;>
    simp [extract_image_bytes, extract_first_image_bytes, hobj, hu, htr, Json.asStr]

/-- Witness for C4: a payload carrying both a top-level URL and a
different URL in `output[0]` resolves to the top-level one, in both
implementations. -/
theorem C4_witness :
    extract_image_bytes (fun v => (v.data.map Char.toNat, none)) (fun _ => [])
      (Json.obj [("url", Json.str "http://top.example/a.png"),
                 ("output", Json.arr [Json.obj [("url", Json.str "http://list.example/b.png")]])]) =
      some (fetchResp (fun v => (v.data.map Char.toNat, none)) "http://top.example/a.png") ∧
    extract_first_image_bytes (fun v => (v.data.map Char.toNat, none)) (fun _ => [])
      (Json.obj [("url", Json.str "http://top.example/a.png"),
                 ("output", Json.arr [Json.obj [("url", Json.str "http://list.example/b.png")]])]) =
      some (fetchResp (fun v => (v.data.map Char.toNat, none)) "http://top.example/a.png") := by
  exact C4_top_level_url_wins _ _ _ "http://top.example/a.png" (by rfl) (by rfl) (by decide)

/-- C10: if the poll succeeds and the extractor locates a URL whose fetched
body is the empty byte string, the handler's `if not img_bytes:` truthiness
check cannot tell the empty body from extraction failure, so it answers 502
with the `no image found in result` diagnostic payload rather than 200 with
an empty body. -/
theorem C10_empty_fetched_body_reported_as_no_image
    (key p : String) (data startResp : Json)
    (statuses : Nat → Json) (elapsed : Nat → Nat) (resultPayload final : Json)
    (timeout fuel sc rf : Nat)
    (fetch : String → List Nat × Option String) (b64dec : String → List Nat)
    (m : String)
    (hkey : key ≠ "") (hp : data.getPy "prompt" = Json.str p) (hps : stripPy p ≠ "")
    (hid : (chosen_request_id startResp).truthy = true)
    (hpoll : poll_until_complete statuses elapsed resultPayload timeout fuel 0 =
      some (PollOutcome.success final, { statusCalls := sc, resultFetches := rf }))
    (hext : extract_image_bytes fetch b64dec final = some ([], m)) :
    generate key data startResp statuses elapsed resultPayload timeout fetch b64dec fuel =
      some (⟨Body.jsonBody "no image found in result" "result" final, 502⟩,
            { submits := 1, statusQueries := sc, resultFetches := rf }) := by
  have hpne : p ≠ "" := by intro hcon; exact hps (by rw [hcon]; rfl)
  have htr : (Json.str p).truthy = true := by simp [Json.truthy, hpne]
  simp [generate, hkey, hp, hps, hid, hpoll, hext, pyOr, htr, Json.asStr]

/-- Witness for C10: a stub provider succeeds immediately, the result's
top-level URL serves a zero-byte body, and the handler answers 502 with the
diagnostic payload. -/
theorem C10_witness :
    generate "k" (Json.obj [("prompt", Json.str "a red circle")])
      (Json.obj [("request_id", Json.str "req-1")])
      (fun _ => Json.obj [("status", Json.str "SUCCESS")]) (fun _ => 0)
      (Json.obj [("url", Json.str "http://img.example/empty.png")]) 60
      (fun _ => ([], some "image/png")) (fun _ => []) 1 =
      some (⟨Body.jsonBody "no image found in result" "result"
              (Json.obj [("url", Json.str "http://img.example/empty.png")]), 502⟩,
            { submits := 1, statusQueries := 1, resultFetches := 1 }) := by
  exact C10_empty_fetched_body_reported_as_no_image
    "k" "a red circle" (Json.obj [("prompt", Json.str "a red circle")])
    (Json.obj [("request_id", Json.str "req-1")])
    (fun _ => Json.obj [("status", Json.str "SUCCESS")]) (fun _ => 0)
    (Json.obj [("url", Json.str "http://img.example/empty.png")])
    (Json.obj [("url", Json.str "http://img.example/empty.png")])
    60 1 1 1 (fun _ => ([], some "image/png")) (fun _ => []) "image/png"
    (by decide) (by rfl) (by decide) (by rfl) (by rfl) (by rfl)

/-- The streamlit extractor's `output[0]` block succeeds on strictly fewer
shapes than app.py's: whenever app.py's block yields nothing, so does
streamlit's (its string-item branch is dead code). -/
theorem tryOutputSt_none_of_app_none
    (fetch : String → List Nat × Option String) (b64dec : String → List Nat)
    (output : Json) (h : tryOutputApp fetch b64dec output = none) :
    tryOutputSt fetch b64dec output = none := by
  cases output with
  | arr xs =>
    cases xs with
    | nil => rfl
    | cons item rest =>
      cases item with
      | obj fs => exact h
      | str s => rfl
      | null => rfl
      | bool b => rfl
      | num n => rfl
      | arr ys => rfl
  | obj fs => rfl
  | null => rfl
  | bool b => rfl
  | num n => rfl
  | str s => rfl

/-- C9 counterexample: in `{"data": ["http://img.example/a.png"]}` no
top-level-URL or output-list shape matches and a nested string value begins
with `http`, yet both extractors return no bytes.  `find_url` never tests
strings sitting directly in a list: its `isinstance(v, str)` check runs
only on dict values, and recursing into a bare string returns `None`. -/
theorem C9_counterexample :
    hasHttp (Json.obj [("data", Json.arr [Json.str "http://img.example/a.png"])]) = true ∧
    extract_image_bytes (fun v => (v.data.map Char.toNat, none)) (fun _ => [])
      (Json.obj [("data", Json.arr [Json.str "http://img.example/a.png"])]) = none ∧
    extract_first_image_bytes (fun v => (v.data.map Char.toNat, none)) (fun _ => [])
      (Json.obj [("data", Json.arr [Json.str "http://img.example/a.png"])]) = none :=
  ⟨by decide, by decide, by decide⟩

/-- C9 (amended): for an object payload where neither the top-level URL nor
the output-list shapes match, the extractors run `find_url`, whose search
visits dictionary VALUES only.  If some string starting with `http` occurs
as a dict value at any depth, the search returns such a string and both
extractors fetch it; if no http string occurs as a dict value (even if one
occurs as a bare list element), both extractors signal no-image-found by
returning no bytes. -/
theorem C9_amended_dict_value_fallback
    (fetch : String → List Nat × Option String) (b64dec : String → List Nat)
    (fs : List (String × Json))
    (hurl : ((Json.obj fs).getPy "url").truthy = false)
    (hout : tryOutputApp fetch b64dec
      (pyOr ((Json.obj fs).getPy "output")
        (pyOr ((Json.obj fs).getPy "outputs") ((Json.obj fs).getPy "results"))) = none) :
    (hasHttpDictValue (Json.obj fs) = true →
      ∃ u, find_url (Json.obj fs) = some u ∧ startsWithPy u "http" = true ∧
        extract_image_bytes fetch b64dec (Json.obj fs) = some (fetchResp fetch u) ∧
        extract_first_image_bytes fetch b64dec (Json.obj fs) = some (fetchResp fetch u)) ∧
    (hasHttpDictValue (Json.obj fs) = false →
      extract_image_bytes fetch b64dec (Json.obj fs) = none ∧
      extract_first_image_bytes fetch b64dec (Json.obj fs) = none) := by
  have hst := tryOutputSt_none_of_app_none fetch b64dec _ hout
  have hcond : ((Json.obj fs).isObj && ((Json.obj fs).getPy "url").truthy) = false := by
    simp [hurl]
  constructor
  · intro hh
    obtain ⟨u, hu⟩ := Option.isSome_iff_exists.mp (find_url_complete _ hh)
    have hsw := (find_url_sound _ _ hu).1
    exact ⟨u, hu, hsw, by simp [extract_image_bytes, hcond, hout, hu],
           by simp [extract_first_image_bytes, hcond, hst, hu]⟩
  · intro hh
    cases hfu : find_url (Json.obj fs) with
    | some u =>
      have hv := (find_url_sound _ _ hfu).2
      rw [hh] at hv; cases hv
    | none =>
      exact ⟨by simp [extract_image_bytes, hcond, hout, hfu],
             by simp [extract_first_image_bytes, hcond, hst, hfu]⟩

/-- Witness for C9 (amended): `{"data": {"img": "http://img.example/a.png"}}`
holds an http string as a nested dict value, and the fallback finds it. -/
theorem C9_witness :
    hasHttpDictValue
      (Json.obj [("data", Json.obj [("img", Json.str "http://img.example/a.png")])]) = true ∧
    (hasHttpDictValue
        (Json.obj [("data", Json.obj [("img", Json.str "http://img.example/a.png")])]) = true →
      ∃ u, find_url
          (Json.obj [("data", Json.obj [("img", Json.str "http://img.example/a.png")])]) = some u ∧
        startsWithPy u "http" = true ∧
        extract_image_bytes (fun v => (v.data.map Char.toNat, none)) (fun _ => [])
          (Json.obj [("data", Json.obj [("img", Json.str "http://img.example/a.png")])]) =
          some (fetchResp (fun v => (v.data.map Char.toNat, none)) u) ∧
        extract_first_image_bytes (fun v => (v.data.map Char.toNat, none)) (fun _ => [])
          (Json.obj [("data", Json.obj [("img", Json.str "http://img.example/a.png")])]) =
          some (fetchResp (fun v => (v.data.map Char.toNat, none)) u)) :=
  ⟨by decide,
   (C9_amended_dict_value_fallback (fun v => (v.data.map Char.toNat, none)) (fun _ => [])
      [("data", Json.obj [("img", Json.str "http://img.example/a.png")])]
      (by decide) (by decide)).1⟩

/-- C5: at `{"meta": "http://other.example/x",
"output": ["http://img.example/a.png"]}` — no top-level `url`, first output
element a URL-shaped string — app.py's extractor uses that string directly
at priority step (c), but streamlit_app.py's never does: its
`isinstance(item, str)` check is indented inside the
`isinstance(item, dict)` branch (dead code), so it falls through to the
recursive search and fetches the `meta` URL instead.  The two
implementations therefore fetch different URLs on the same payload,
against both the spec's priority order and the streamlit source's own
`sometimes the item itself is a string URL` comment. -/
theorem C5_streamlit_string_output_check_unreachable :
    extract_image_bytes (fun v => (v.data.map Char.toNat, none)) (fun _ => [])
      (Json.obj [("meta", Json.str "http://other.example/x"),
                 ("output", Json.arr [Json.str "http://img.example/a.png"])]) =
      some (fetchResp (fun v => (v.data.map Char.toNat, none)) "http://img.example/a.png") ∧
    extract_first_image_bytes (fun v => (v.data.map Char.toNat, none)) (fun _ => [])
      (Json.obj [("meta", Json.str "http://other.example/x"),
                 ("output", Json.arr [Json.str "http://img.example/a.png"])]) =
      some (fetchResp (fun v => (v.data.map Char.toNat, none)) "http://other.example/x") ∧
    fetchResp (fun v => (v.data.map Char.toNat, none)) "http://img.example/a.png" ≠
      fetchResp (fun v => (v.data.map Char.toNat, none)) "http://other.example/x" :=
  ⟨by decide, by decide, by decide⟩

/-- C6: the two implementations do NOT address the same provider URLs.
app.py's `DO_INFERENCE_BASE` already ends in `/async-invoke` and every
helper appends `/async-invoke` again, yielding a doubled path segment,
while streamlit_app.py's base stops at `/v1`.  Evaluated at request id
`"abc"`: all three endpoint URLs differ between the files. -/
theorem C6_endpoint_urls_differ_between_files :
    AppPy.submitUrl = "https://inference.do-ai.run/v1/async-invoke/async-invoke" ∧
    StApp.submitUrl = "https://inference.do-ai.run/v1/async-invoke" ∧
    AppPy.statusUrl "abc" =
      "https://inference.do-ai.run/v1/async-invoke/async-invoke/abc/status" ∧
    StApp.statusUrl "abc" = "https://inference.do-ai.run/v1/async-invoke/abc/status" ∧
    AppPy.submitUrl ≠ StApp.submitUrl ∧
    AppPy.statusUrl "abc" ≠ StApp.statusUrl "abc" ∧
    AppPy.resultUrl "abc" ≠ StApp.resultUrl "abc" :=
  ⟨by decide, by decide, by decide, by decide, by decide, by decide, by decide⟩

/-- C7: when the request's `prompt` is missing (or JSON null) or strips to
the empty string, the Flask handler answers 400 `Prompt is required` with
zero provider calls (no submission, status query, or result fetch), and the
streamlit handler likewise shows its empty-prompt warning without any
provider call. -/
theorem C7_blank_prompt_rejected_without_provider_calls
    (key stKey stPrompt : String) (data startResp : Json)
    (statuses : Nat → Json) (elapsed : Nat → Nat) (resultPayload : Json)
    (timeout fuel : Nat)
    (fetch : String → List Nat × Option String) (b64dec : String → List Nat)
    (hkey : key ≠ "") (hobj : data.isObj = true)
    (hprompt : data.getPy "prompt" = Json.null ∨
      ∃ p, data.getPy "prompt" = Json.str p ∧ stripPy p = "")
    (hstKey : stKey ≠ "") (hstPrompt : stripPy stPrompt = "") :
    generate key data startResp statuses elapsed resultPayload timeout fetch b64dec fuel =
      some (⟨Body.text "Prompt is required", 400⟩,
            { submits := 0, statusQueries := 0, resultFetches := 0 }) ∧
    generate_btn_click stKey stPrompt startResp statuses elapsed resultPayload timeout
        fetch b64dec fuel =
      some (StOutcome.warnEmptyPrompt,
            { submits := 0, statusQueries := 0, resultFetches := 0 }) := by
  constructor
  · rcases hprompt with hn | ⟨p, hp, hps⟩
    · have h0 : stripPy (Json.asStr (pyOr Json.null (Json.str ""))) = "" := by rfl
      simp [generate, hkey, hn, h0]
    · by_cases hpe : p = ""
      · subst hpe
        simp [generate, hkey, hp, pyOr, Json.truthy, Json.asStr, hps]
      · have htr : (Json.str p).truthy = true := by simp [Json.truthy, hpe]
        simp [generate, hkey, hp, htr, pyOr, Json.asStr, hps]
  · simp [generate_btn_click, hstKey, hstPrompt]

/-- Witness for C7: a whitespace-only prompt in the Flask request body and
in the streamlit text area. -/
theorem C7_witness :
    generate "k" (Json.obj [("prompt", Json.str "   ")])
      (Json.obj [("request_id", Json.str "req-1")])
      (fun _ => Json.null) (fun _ => 0) Json.null 60
      (fun _ => ([], none)) (fun _ => []) 1 =
      some (⟨Body.text "Prompt is required", 400⟩,
            { submits := 0, statusQueries := 0, resultFetches := 0 }) ∧
    generate_btn_click "k" "  \t " (Json.obj [("request_id", Json.str "req-1")])
      (fun _ => Json.null) (fun _ => 0) Json.null 60
      (fun _ => ([], none)) (fun _ => []) 1 =
      some (StOutcome.warnEmptyPrompt,
            { submits := 0, statusQueries := 0, resultFetches := 0 }) := by
  exact C7_blank_prompt_rejected_without_provider_calls
    "k" "k" "  \t " (Json.obj [("prompt", Json.str "   ")])
    (Json.obj [("request_id", Json.str "req-1")])
    (fun _ => Json.null) (fun _ => 0) Json.null 60 1
    (fun _ => ([], none)) (fun _ => [])
    (by decide) (by rfl) (Or.inr ⟨"   ", by rfl, by rfl⟩) (by decide) (by rfl)

/-- C8: the job-submission reply's identifier is resolved by the chain
`request_id` / `id` / `requestId`, first one present winning ("present"
meaning the key holds a non-empty string; an absent key and a JSON null
both read back as null).  When all three are absent, the Flask handler
answers 502 `unexpected async-invoke response` carrying the raw reply, and
the streamlit handler shows the same raw reply — after exactly one
provider call (the submission) in each. -/
theorem C8_request_id_field_fallback_chain
    (key p : String) (data start : Json)
    (statuses : Nat → Json) (elapsed : Nat → Nat) (resultPayload : Json)
    (timeout fuel : Nat)
    (fetch : String → List Nat × Option String) (b64dec : String → List Nat)
    (hkey : key ≠ "") (hp : data.getPy "prompt" = Json.str p) (hps : stripPy p ≠ "") :
    (∀ r : String, r ≠ "" → start.getPy "request_id" = Json.str r →
      chosen_request_id start = Json.str r) ∧
    (∀ r : String, r ≠ "" → start.getPy "request_id" = Json.null →
      start.getPy "id" = Json.str r → chosen_request_id start = Json.str r) ∧
    (∀ r : String, r ≠ "" → start.getPy "request_id" = Json.null →
      start.getPy "id" = Json.null → start.getPy "requestId" = Json.str r →
      chosen_request_id start = Json.str r) ∧
    (start.getPy "request_id" = Json.null → start.getPy "id" = Json.null →
      start.getPy "requestId" = Json.null →
      generate key data start statuses elapsed resultPayload timeout fetch b64dec fuel =
        some (⟨Body.jsonBody "unexpected async-invoke response" "resp" start, 502⟩,
              { submits := 1, statusQueries := 0, resultFetches := 0 }) ∧
      generate_btn_click key p start statuses elapsed resultPayload timeout fetch b64dec fuel =
        some (StOutcome.errorUnexpected start,
              { submits := 1, statusQueries := 0, resultFetches := 0 })) := by
  have hpne : p ≠ "" := by intro hcon; exact hps (by rw [hcon]; rfl)
  have htr : (Json.str p).truthy = true := by simp [Json.truthy, hpne]
  refine ⟨?_, ?_, ?_, ?_⟩
  · intro r hr h1
    simp [chosen_request_id, pyOr, Json.truthy, h1, hr]
  · intro r hr h1 h2
    simp [chosen_request_id, pyOr, Json.truthy, h1, h2, hr]
  · intro r hr h1 h2 h3
    simp [chosen_request_id, pyOr, Json.truthy, h1, h2, h3, hr]
  · intro h1 h2 h3
    have hch : chosen_request_id start = Json.null := by
      simp [chosen_request_id, pyOr, Json.truthy, h1, h2, h3]
    have hfalse : (chosen_request_id start).truthy = false := by
      simp [hch, Json.truthy]
    constructor
    · simp [generate, hkey, hp, htr, pyOr, Json.asStr, hps, hfalse]
    · simp [generate_btn_click, hkey, hps, hfalse]

/-- Witness for C8: a reply carrying only `id` and `requestId` resolves to
the `id` value; a reply with none of the three fields makes the handler
answer 502 with that raw reply after the single submission call. -/
theorem C8_witness :
    chosen_request_id (Json.obj [("id", Json.str "j-1"), ("requestId", Json.str "j-2")]) =
      Json.str "j-1" ∧
    generate "k" (Json.obj [("prompt", Json.str "hi")]) (Json.obj [("note", Json.str "x")])
      (fun _ => Json.null) (fun _ => 0) Json.null 60
      (fun _ => ([], none)) (fun _ => []) 1 =
      some (⟨Body.jsonBody "unexpected async-invoke response" "resp"
              (Json.obj [("note", Json.str "x")]), 502⟩,
            { submits := 1, statusQueries := 0, resultFetches := 0 }) := by
  constructor
  · exact (C8_request_id_field_fallback_chain "k" "hi"
      (Json.obj [("prompt", Json.str "hi")])
      (Json.obj [("id", Json.str "j-1"), ("requestId", Json.str "j-2")])
      (fun _ => Json.null) (fun _ => 0) Json.null 60 1
      (fun _ => ([], none)) (fun _ => [])
      (by decide) (by rfl) (by decide)).2.1 "j-1" (by decide) (by rfl) (by rfl)
  · exact ((C8_request_id_field_fallback_chain "k" "hi"
      (Json.obj [("prompt", Json.str "hi")])
      (Json.obj [("note", Json.str "x")])
      (fun _ => Json.null) (fun _ => 0) Json.null 60 1
      (fun _ => ([], none)) (fun _ => [])
      (by decide) (by rfl) (by decide)).2.2.2 (by rfl) (by rfl) (by rfl)).1

end DOFal
